import Mathlib

/-!
Shallow embedding of `src/bot.py` (Daily-Challenge-Bot): the challenge
lifecycle state (`current_challenge`, `challenge_history`), the static
configuration tables (`GAME_MODES`, `MAPS`, `DAILY_ROTATION`), the
GeoGuessr API client boundary, leaderboard formatting, and the daily
cycle.  Remote responses are passed in explicitly; Python exceptions are
modelled with `Except`, Python `None` with `Option`, and Python string
truthiness explicitly.
-/

set_option autoImplicit false

namespace DailyChallengeBot

/-- Python truthiness of an optional string: `None` and `""` are falsy. -/
def optStrTruthy : Option String → Bool
  | none => false
  | some s => !(s = "")

/-- Python `str()` of an optional value as interpolated into an f-string:
`None` prints as `"None"`. -/
def pyStr : Option String → String
  | none => "None"
  | some s => s

/-- A JSON score value as it can appear in (or be defaulted into) the
leaderboard code: a number, or a string (the code defaults a missing
`amount` to the string `"0"`). -/
inductive ScoreVal where
  | num (n : Int)
  | str (s : String)
deriving DecidableEq, Repr

/-- The `totalScore` object of a player in the results payload; `amount`
may be absent. -/
structure TotalScore where
  amount : Option ScoreVal
deriving DecidableEq, Repr

/-- The `player` object of a results item; `nick` and `totalScore` may be
absent. -/
structure Player where
  nick : Option String
  totalScore : Option TotalScore
deriving DecidableEq, Repr

/-- The `game` object of a results item; `player` may be absent. -/
structure Game where
  player : Option Player
deriving DecidableEq, Repr

/-- One element of the `items` array of a results payload; `game` may be
absent. -/
structure Item where
  game : Option Game
deriving DecidableEq, Repr

/-- The value found under the `items` key of a results payload: a JSON
list, or some non-list value (the code checks `isinstance(..., list)`). -/
inductive ItemsVal where
  | list (l : List Item)
  | nonList
deriving DecidableEq, Repr

/-- A results payload (a JSON object): the value of its `items` key if
present, plus whether the object has any other keys (needed for Python
dict truthiness: `{}` is falsy). -/
structure Results where
  itemsVal : Option ItemsVal
  hasOtherKeys : Bool
deriving DecidableEq, Repr

/-- Python truthiness of the results dict: non-empty iff it has some key. -/
def Results.truthy (r : Results) : Bool :=
  r.itemsVal.isSome || r.hasOtherKeys

/-- The `items` value when it is present and is a list (the only case
`format_leaderboard` iterates over). -/
def Results.itemsList (r : Results) : Option (List Item) :=
  match r.itemsVal with
  | some (.list l) => some l
  | _ => none

/-- Settings of a game mode (bot.py `GAME_MODES[...]["settings"]`). -/
structure ModeSettings where
  forbidMoving : Bool
  forbidZooming : Bool
  forbidRotating : Bool
  timeLimit : Nat
deriving DecidableEq, Repr

/-- A game-mode configuration entry (bot.py `GAME_MODES`). -/
structure ModeConfig where
  name : String
  settings : ModeSettings
deriving DecidableEq, Repr

/-- A map configuration entry (bot.py `MAPS`). -/
structure MapConfig where
  id : String
  name : String
deriving DecidableEq, Repr

/-- bot.py `GAME_MODES` lookup (`dict.get` semantics: unknown key gives
`none`). -/
def GAME_MODES : String → Option ModeConfig
  | "nomove" => some ⟨"No Move", ⟨true, true, true, 120⟩⟩
  | "move" => some ⟨"Moving", ⟨false, false, false, 300⟩⟩
  | "nmpz" => some ⟨"NMPZ", ⟨true, true, true, 90⟩⟩
  | _ => none

/-- bot.py `MAPS` lookup. -/
def MAPS : String → Option MapConfig
  | "community_world" => some ⟨"62a44b22040f04bd36e8a914", "A Community World"⟩
  | "informed_world" => some ⟨"676340ae2f718dbabdf30331", "An Informed World"⟩
  | "pro_world" => some ⟨"6620b311f64a7b842b2ca83a", "A Pro World"⟩
  | "arbitrary_rural" => some ⟨"643dbc7ccc47d3a344307998", "An Arbitrary Rural World"⟩
  | "rainbolt_world" => some ⟨"65c86935d327035509fd616f", "A Rainbolt World"⟩
  | _ => none

/-- One entry of the weekly rotation (bot.py `DAILY_ROTATION` items). -/
structure RotationEntry where
  map : String
  mode : String
deriving DecidableEq, Repr

/-- bot.py `DAILY_ROTATION`: Monday (index 0) through Sunday (index 6). -/
def DAILY_ROTATION : List RotationEntry :=
  [⟨"community_world", "move"⟩,
   ⟨"pro_world", "nomove"⟩,
   ⟨"arbitrary_rural", "nmpz"⟩,
   ⟨"informed_world", "move"⟩,
   ⟨"community_world", "nomove"⟩,
   ⟨"rainbolt_world", "nmpz"⟩,
   ⟨"informed_world", "nomove"⟩]

/-- bot.py `get_today_rotation`: index `DAILY_ROTATION` by the weekday
(`datetime.now().weekday()`, Monday = 0), here passed explicitly. -/
def get_today_rotation (weekday : Fin 7) : RotationEntry :=
  DAILY_ROTATION.get ⟨weekday.val, Nat.lt_of_lt_of_le weekday.isLt (by decide)⟩

/-- bot.py `ALLOWED_CHANNELS`. -/
def ALLOWED_CHANNELS : List Nat :=
  [1386753541309468702, 1386746260819804220]

/-- The bot.py module never assigns `CHANNEL_ID`, although several command
handlers compare against it; evaluating the name raises `NameError`. -/
def CHANNEL_ID : Option Nat := none

/-- The bot.py module never defines `is_allowed_channel`, although the
challenge and leaderboard handlers call it; evaluating the name raises
`NameError`. -/
def is_allowed_channel : Option (Nat → Bool) := none

/-- bot.py `current_challenge`: a dict with fixed keys; all values start
as `None` except `day_number`, which starts at `0`. -/
structure ChallengeRecord where
  id : Option String
  url : Option String
  map : Option String
  mode : Option String
  created_at : Option Nat
  day_number : Nat
deriving DecidableEq, Repr

/-- The module-level mutable state of bot.py. -/
structure BotState where
  current_challenge : ChallengeRecord
  challenge_history : List ChallengeRecord
deriving DecidableEq, Repr

/-- The state right after module initialization. -/
def initial_state : BotState :=
  { current_challenge := ⟨none, none, none, none, none, 0⟩
    challenge_history := [] }

/-- The possible outcomes of the `requests.post` call made by
`GeoGuessrAPI.create_challenge`, as far as the code can distinguish them:
a transport failure, a non-success HTTP status (`raise_for_status`), a
body that fails JSON decoding, or a decoded JSON body from which only the
`token` field matters (possibly absent). -/
inductive CreateResponse where
  | networkError
  | httpError (status : Nat)
  | malformedBody
  | success (token : Option String)
deriving DecidableEq, Repr

/-- The failure kinds of a create call per the error taxonomy: network
error, non-success status, malformed payload, or a success response
missing the `token` field. -/
def isCreateFailure : CreateResponse → Bool
  | .networkError => true
  | .httpError _ => true
  | .malformedBody => true
  | .success none => true
  | .success (some _) => false

/-- bot.py `GeoGuessrAPI.create_challenge`: returns `(None, None)` for an
unknown game mode or any caught `requests.RequestException`; otherwise
returns `data.get("token")` together with the challenge URL built from it
by f-string interpolation (so an absent token yields a URL ending in
`"None"`). -/
def create_challenge (map_id : String) (game_mode : String) (resp : CreateResponse) :
    Option String × Option String :=
  if (GAME_MODES game_mode).isNone then (none, none)
  else
    match resp with
    | .networkError => (none, none)
    | .httpError _ => (none, none)
    | .malformedBody => (none, none)
    | .success token =>
      (token, some ("https://www.geoguessr.com/challenge/" ++ pyStr token))

/-- The possible outcomes of the `requests.get` call made by
`GeoGuessrAPI.get_challenge_results`. -/
inductive FetchResponse where
  | networkError
  | httpError (status : Nat)
  | malformedBody
  | success (body : Results)
deriving DecidableEq, Repr

/-- bot.py `GeoGuessrAPI.get_challenge_results`: `None` on any caught
`requests.RequestException`, the decoded body otherwise. -/
def get_challenge_results (challenge_id : String) (resp : FetchResponse) :
    Option Results :=
  match resp with
  | .networkError => none
  | .httpError _ => none
  | .malformedBody => none
  | .success body => some body

/-- Python thousands-separator grouping on a reversed digit list: a comma
after every third digit when more digits remain. -/
def commaRev : List Char → List Char
  | c1 :: c2 :: c3 :: rest =>
    match rest with
    | [] => [c1, c2, c3]
    | _ :: _ => c1 :: c2 :: c3 :: ',' :: commaRev rest
  | l => l

/-- Python `format(n, ",")` for a natural number. -/
def natComma (n : Nat) : String :=
  ⟨(commaRev (toString n).data.reverse).reverse⟩

/-- Python `f"{n:,}"` for an integer. -/
def formatComma (n : Int) : String :=
  if n < 0 then "-" ++ natComma n.natAbs else natComma n.toNat

/-- Python `f"{score:,}"` on a score value: formats a number with
thousands separators and raises `ValueError` on a string (the comma
format spec is invalid for `str`). -/
def pyFormatComma : ScoreVal → Except String String
  | .num n => .ok (formatComma n)
  | .str _ => .error "ValueError: Cannot specify comma format with type str"

/-- The medal prefix bot.py puts before ranks 1 to 3. -/
def medal (i : Nat) : String :=
  if i = 1 then "🥇 " else if i = 2 then "🥈 " else if i = 3 then "🥉 " else ""

/-- The f-string bot.py appends for one leaderboard row, given the rank,
the nick and the already comma-formatted score. -/
def lineText (i : Nat) (nick : String) (scoreStr : String) : String :=
  medal i ++ toString i ++ ". **" ++ nick ++ "** - " ++ scoreStr

/-- Python `player_data["game"]["player"]` guarded by the two `in`
checks: `none` when either key is absent. -/
def playerOf (it : Item) : Option Player :=
  it.game.bind fun g => g.player

/-- bot.py `player.get("totalScore", {}).get("amount", "0")`: note the
default is the string `"0"`, not the number 0. -/
def scoreOf (p : Player) : ScoreVal :=
  match p.totalScore with
  | none => .str "0"
  | some ts => ts.amount.getD (.str "0")

/-- The body of the `for` loop of `format_leaderboard` for one item:
skipped (no line) when `game`/`player` is absent; otherwise defaults a
missing `nick` to `"Unknown"` and comma-formats the score, raising when
the score is a string. -/
def renderItem (i : Nat) (player_data : Item) : Except String (Option String) :=
  match playerOf player_data with
  | none => .ok none
  | some player =>
    let nick := player.nick.getD "Unknown"
    match pyFormatComma (scoreOf player) with
    | .error e => .error e
    | .ok s => .ok (some (lineText i nick s))

/-- The `for i, player_data in enumerate(player_list, 1)` loop of
`format_leaderboard`: an exception raised on any item aborts the whole
call. -/
def formatLoop : Nat → List Item → Except String (List String)
  | _, [] => .ok []
  | i, player_data :: rest =>
    match renderItem i player_data with
    | .error e => .error e
    | .ok none => formatLoop (i + 1) rest
    | .ok (some line) =>
      match formatLoop (i + 1) rest with
      | .error e => .error e
      | .ok restLines => .ok (line :: restLines)

/-- bot.py `format_leaderboard(results, max_players=10)`: empty when
`items` is absent or not a list, otherwise the loop over
`results["items"][:max_players]`. -/
def format_leaderboard (results : Results) (max_players : Nat) :
    Except String (List String) :=
  match results.itemsVal with
  | some (.list items) => formatLoop 1 (items.take max_players)
  | _ => .ok []

/-- The messages the lifecycle handlers send to the channel, abstracted
to the fields the claims are about. -/
inductive CycleMsg where
  | fetchWarning
  | resultsEmbed (day_number : Nat) (leaderboard : List String)
      (stats : Option (Nat × Option String))
  | invalidConfig
  | createFailed
  | challengeEmbed (day_number : Nat) (url : String)
  | usingRotation (mapKey modeKey : String)
  | invalidMap
  | invalidMode
  | creatingCustom
  | customCreateFailed
  | customChallengeEmbed (url : String) (challenge_id : String)
deriving DecidableEq, Repr

/-- bot.py `results["items"][0]["game"]["player"]` followed by
`.get("totalScore", {}).get("amount", 0)` and `f"{winner_score:,}"`:
unguarded key accesses raise, and here the default is the number 0. -/
def winnerScoreStr (items : List Item) : Except String String :=
  match items with
  | [] => .error "IndexError: list index out of range"
  | it :: _ =>
    match it.game with
    | none => .error "KeyError: game"
    | some g =>
      match g.player with
      | none => .error "KeyError: player"
      | some p =>
        let winner_score : ScoreVal :=
          match p.totalScore with
          | none => .num 0
          | some ts => ts.amount.getD (.num 0)
        pyFormatComma winner_score

/-- bot.py `post_previous_results`: fetches the current challenge's
results (the remote outcome is passed in), warns and stops when the
fetch returned `None` or a falsy dict, and otherwise posts one embed:
the leaderboard with player stats when non-empty, a no-results field
when empty.  Never mutates the challenge state. -/
def post_previous_results (s : BotState) (fetch : FetchResponse) :
    Except String (List CycleMsg) :=
  match get_challenge_results (s.current_challenge.id.getD "") fetch with
  | none => .ok [.fetchWarning]
  | some results =>
    if results.truthy = false then .ok [.fetchWarning]
    else
      match format_leaderboard results 10 with
      | .error e => .error e
      | .ok leaderboard =>
        if leaderboard.isEmpty then
          .ok [.resultsEmbed s.current_challenge.day_number leaderboard none]
        else
          let itemsList := results.itemsList.getD []
          let total_players := itemsList.length
          if total_players > 0 then
            match winnerScoreStr itemsList with
            | .error e => .error e
            | .ok ws =>
              .ok [.resultsEmbed s.current_challenge.day_number leaderboard
                    (some (total_players, some ws))]
          else
            .ok [.resultsEmbed s.current_challenge.day_number leaderboard
                  (some (total_players, none))]

/-- bot.py `create_todays_challenge`: resolves today's rotation entry,
validates the map and mode lookups, calls the remote create, and on a
truthy token replaces `current_challenge` with a fresh record whose
`day_number` is the previous one plus 1 and appends a copy of that new
record to `challenge_history`.  On any failure the state is returned
unchanged. -/
def create_todays_challenge (s : BotState) (weekday : Fin 7)
    (resp : CreateResponse) (now : Nat) : BotState × List CycleMsg :=
  let rotation := get_today_rotation weekday
  let map_key := rotation.map
  let mode_key := rotation.mode
  match MAPS map_key, GAME_MODES mode_key with
  | some map_config, some _mode_config =>
    match create_challenge map_config.id mode_key resp with
    | (none, _) => (s, [.createFailed])
    | (some cid, challenge_url) =>
      if cid = "" then (s, [.createFailed])
      else
        let newCur : ChallengeRecord :=
          { id := some cid
            url := challenge_url
            map := some map_key
            mode := some mode_key
            created_at := some now
            day_number := s.current_challenge.day_number + 1 }
        ({ current_challenge := newCur
           challenge_history := s.challenge_history ++ [newCur] },
         [.challengeEmbed newCur.day_number (pyStr challenge_url)])
  | _, _ => (s, [.invalidConfig])

/-- bot.py `daily_challenge_cycle`: when the target channel resolves,
first posts the previous results when `current_challenge["id"]` is
truthy (an exception there propagates and aborts the cycle), then
creates today's challenge. -/
def daily_challenge_cycle (channelFound : Bool) (s : BotState) (weekday : Fin 7)
    (fetch : FetchResponse) (resp : CreateResponse) (now : Nat) :
    Except String (BotState × List CycleMsg) :=
  if channelFound = false then .ok (s, [])
  else
    if optStrTruthy s.current_challenge.id then
      match post_previous_results s fetch with
      | .error e => .error e
      | .ok msgs1 =>
        match create_todays_challenge s weekday resp now with
        | (s2, msgs2) => .ok (s2, msgs1 ++ msgs2)
    else
      match create_todays_challenge s weekday resp now with
      | (s2, msgs2) => .ok (s2, msgs2)

/-- The NameError message raised by the `!challenge` handler. -/
def nameErrorIsAllowed : String :=
  "NameError: name is_allowed_channel is not defined"

/-- The NameError message raised by the handlers that compare against
`CHANNEL_ID`. -/
def nameErrorChannelId : String :=
  "NameError: name CHANNEL_ID is not defined"

/-- bot.py `manual_challenge` (the `!challenge` command): its first
statement calls `is_allowed_channel`, a name the module never defines,
so every invocation raises `NameError` before the rest of the body
(rotation fallback, validation, remote create) can run.  The handler
reads no challenge state and never assigns the module globals. -/
def manual_challenge (channel_id : Nat) (map_name mode_name : Option String)
    (weekday : Fin 7) (resp : CreateResponse) : Except String (List CycleMsg) :=
  match is_allowed_channel with
  | none => .error nameErrorIsAllowed
  | some allowed =>
    if allowed channel_id = false then .ok []
    else
      let noArgs := optStrTruthy map_name = false ∨ optStrTruthy mode_name = false
      let rotation := get_today_rotation weekday
      let map_key := if noArgs then rotation.map else map_name.getD ""
      let mode_key := if noArgs then rotation.mode else mode_name.getD ""
      let msgs0 : List CycleMsg :=
        if noArgs then [.usingRotation rotation.map rotation.mode] else []
      match MAPS map_key, GAME_MODES mode_key with
      | none, _ => .ok (msgs0 ++ [.invalidMap])
      | some _, none => .ok (msgs0 ++ [.invalidMode])
      | some map_config, some _mode_config =>
        match create_challenge map_config.id mode_key resp with
        | (none, _) => .ok (msgs0 ++ [.creatingCustom, .customCreateFailed])
        | (some cid, challenge_url) =>
          if cid = "" then .ok (msgs0 ++ [.creatingCustom, .customCreateFailed])
          else .ok (msgs0 ++ [.creatingCustom,
                              .customChallengeEmbed (pyStr challenge_url) cid])

/-- The replies a command handler can produce. -/
inductive Reply where
  | message (text : String)
  | embed (title : String)
deriving DecidableEq, Repr

/-- bot.py `show_schedule` (the `!schedule` command): its first statement
evaluates `CHANNEL_ID`, a name the module never assigns, so every
invocation raises `NameError` before the channel comparison finishes. -/
def show_schedule (channel_id : Nat) : Except String (List Reply) :=
  match CHANNEL_ID with
  | none => .error nameErrorChannelId
  | some cid =>
    if channel_id ≠ cid then .ok []
    else .ok [.embed "Weekly Challenge Schedule"]

/-- The error categories `on_command_error` distinguishes. -/
inductive CommandError where
  | commandNotFound
  | missingRequiredArgument
  | commandInvokeError (msg : String)
deriving DecidableEq, Repr

/-- bot.py `on_command_error`: unknown commands are ignored, a missing
argument and every other error produce a reply. -/
def on_command_error : CommandError → List Reply
  | .commandNotFound => []
  | .missingRequiredArgument =>
    [.message "❌ Missing required argument. Use !help_geo for command help."]
  | .commandInvokeError msg => [.message ("❌ An error occurred: " ++ msg)]

/-- The command framework around `show_schedule`: a handler exception is
routed to `on_command_error` as a command invoke error. -/
def invoke_show_schedule (channel_id : Nat) : List Reply :=
  match show_schedule channel_id with
  | .ok msgs => msgs
  | .error e => on_command_error (.commandInvokeError e)

/-- The events that can touch the module state: a daily cycle run (the
scheduled task or `!force_daily`), or any chat command handler.  No
command handler assigns `current_challenge` or `challenge_history`, so
commands leave the state unchanged. -/
inductive Op where
  | dailyCycle (channelFound : Bool) (weekday : Fin 7) (fetch : FetchResponse)
      (resp : CreateResponse) (now : Nat)
  | command
deriving Repr

/-- The state after one event: the daily cycle installs its resulting
state unless it raised (an exception aborts it before or at the create,
leaving the globals as they were); commands never mutate. -/
def applyOp (s : BotState) : Op → BotState
  | .dailyCycle channelFound weekday fetch resp now =>
    match daily_challenge_cycle channelFound s weekday fetch resp now with
    | .ok (s2, _) => s2
    | .error _ => s
  | .command => s

/-- The states the bot.py process can reach from module initialization. -/
inductive Reachable : BotState → Prop where
  | init : Reachable initial_state
  | step (s : BotState) (op : Op) : Reachable s → Reachable (applyOp s op)

/-- Declarative comma rendering used to state the leaderboard
characterization: on the numbers actually rendered by the code it agrees
with `pyFormatComma`, and the string case is never rendered (the code
raises there). -/
def commaTotal : ScoreVal → String
  | .num n => formatComma n
  | .str s => s

/-- Declarative description of the line emitted for a non-skipped item at
1-based position `i` of the truncated items list. -/
def renderTotal (i : Nat) (pl : Player) : String :=
  lineText i (pl.nick.getD "Unknown") (commaTotal (scoreOf pl))

/-- A well-formed results item: nested `game.player` present, with the
given nick and numeric total score. -/
def itemGood (nick : String) (score : Int) : Item :=
  ⟨some ⟨some ⟨some nick, some ⟨some (.num score)⟩⟩⟩⟩

/-- A results item with no `game` key. -/
def itemNoGame : Item := ⟨none⟩

/-- A results item whose player has no `totalScore` key. -/
def itemNoScore (nick : String) : Item := ⟨some ⟨some ⟨some nick, none⟩⟩⟩

/-- A results item whose player has no `nick` key. -/
def itemNoNick (score : Int) : Item := ⟨some ⟨some ⟨none, some ⟨some (.num score)⟩⟩⟩⟩

/-! ## Helper lemmas -/

theorem rotation_config_valid (wd : Fin 7) :
    (MAPS (get_today_rotation wd).map).isSome
    ∧ (GAME_MODES (get_today_rotation wd).mode).isSome := by
  fin_cases wd <;> decide

theorem create_todays_challenge_success (s : BotState) (wd : Fin 7) (now : Nat)
    (tok : String) (h : ¬ tok = "") :
    create_todays_challenge s wd (.success (some tok)) now =
      ({ current_challenge :=
           { id := some tok
             url := some ("https://www.geoguessr.com/challenge/" ++ tok)
             map := some (get_today_rotation wd).map
             mode := some (get_today_rotation wd).mode
             created_at := some now
             day_number := s.current_challenge.day_number + 1 }
         challenge_history := s.challenge_history ++
           [{ id := some tok
              url := some ("https://www.geoguessr.com/challenge/" ++ tok)
              map := some (get_today_rotation wd).map
              mode := some (get_today_rotation wd).mode
              created_at := some now
              day_number := s.current_challenge.day_number + 1 }] },
       [.challengeEmbed (s.current_challenge.day_number + 1)
          ("https://www.geoguessr.com/challenge/" ++ tok)]) := by
  obtain ⟨hm, hg⟩ := rotation_config_valid wd
  obtain ⟨mc, hmc⟩ := Option.isSome_iff_exists.mp hm
  obtain ⟨gc, hgc⟩ := Option.isSome_iff_exists.mp hg
  simp [create_todays_challenge, hmc, hgc, create_challenge, pyStr, h]

theorem create_todays_challenge_frame (s : BotState) (wd : Fin 7)
    (resp : CreateResponse) (now : Nat) :
    (create_todays_challenge s wd resp now).1 = s ∨
    ((create_todays_challenge s wd resp now).1.current_challenge.day_number
        = s.current_challenge.day_number + 1
     ∧ (create_todays_challenge s wd resp now).1.challenge_history
        = s.challenge_history
          ++ [(create_todays_challenge s wd resp now).1.current_challenge]) := by
  rcases hm : MAPS (get_today_rotation wd).map with _ | mc
  · left
    simp [create_todays_challenge, hm]
  · rcases hg : GAME_MODES (get_today_rotation wd).mode with _ | gc
    · left
      simp [create_todays_challenge, hm, hg]
    · rcases hp : create_challenge mc.id (get_today_rotation wd).mode resp with ⟨_ | cid, url⟩
      · left
        simp [create_todays_challenge, hm, hg, hp]
      · by_cases hc : cid = ""
        · left
          simp [create_todays_challenge, hm, hg, hp, hc]
        · right
          simp [create_todays_challenge, hm, hg, hp, hc]

theorem applyOp_dailyCycle_cases (s : BotState) (channelFound : Bool) (wd : Fin 7)
    (fetch : FetchResponse) (resp : CreateResponse) (now : Nat) :
    applyOp s (.dailyCycle channelFound wd fetch resp now) = s ∨
    applyOp s (.dailyCycle channelFound wd fetch resp now)
      = (create_todays_challenge s wd resp now).1 := by
  by_cases hch : channelFound = false
  · left
    simp [applyOp, daily_challenge_cycle, hch]
  · by_cases hid : optStrTruthy s.current_challenge.id = true
    · rcases hpost : post_previous_results s fetch with e | msgs
      · left
        simp [applyOp, daily_challenge_cycle, hch, hid, hpost]
      · right
        simp [applyOp, daily_challenge_cycle, hch, hid, hpost]
    · right
      simp [applyOp, daily_challenge_cycle, hch, hid]

theorem formatLoop_length (l : List Item) :
    ∀ (i : Nat) (lines : List String), formatLoop i l = .ok lines →
      lines.length ≤ l.length := by
  induction l with
  | nil =>
    intro i lines h
    simp [formatLoop] at h
    simp [← h]
  | cons d rest ih =>
    intro i lines h
    rcases hr : renderItem i d with e | (_ | line)
    · simp [formatLoop, hr] at h
    · simp [formatLoop, hr] at h
      exact Nat.le_succ_of_le (ih (i + 1) lines h)
    · rcases hrec : formatLoop (i + 1) rest with e | restLines
      · simp [formatLoop, hr, hrec] at h
      · simp [formatLoop, hr, hrec] at h
        simp [← h, Nat.succ_le_succ (ih (i + 1) restLines hrec)]

theorem formatLoop_characterization (l : List Item) :
    ∀ (i : Nat) (lines : List String), formatLoop i l = .ok lines →
      lines = (l.enumFrom i).filterMap
        (fun p => (playerOf p.2).map fun pl => renderTotal p.1 pl) := by
  induction l with
  | nil =>
    intro i lines h
    simp [formatLoop] at h
    simp [← h]
  | cons d rest ih =>
    intro i lines h
    rcases hpl : playerOf d with _ | pl
    · have hr : renderItem i d = .ok none := by simp [renderItem, hpl]
      simp [formatLoop, hr] at h
      simpa [List.enumFrom, hpl] using ih (i + 1) lines h
    · rcases hsc : scoreOf pl with n | str
      · have hr : renderItem i d
            = .ok (some (lineText i (pl.nick.getD "Unknown") (formatComma n))) := by
          simp [renderItem, hpl, hsc, pyFormatComma]
        rcases hrec : formatLoop (i + 1) rest with e | restLines
        · simp [formatLoop, hr, hrec] at h
        · simp [formatLoop, hr, hrec] at h
          simp [← h, List.enumFrom, hpl, renderTotal, hsc, commaTotal,
            ih (i + 1) restLines hrec]
      · have hr : renderItem i d
            = .error "ValueError: Cannot specify comma format with type str" := by
          simp [renderItem, hpl, hsc, pyFormatComma]
        simp [formatLoop, hr] at h

/-! ## Claim theorems -/

/-- Claim C1, counterexample: after the first successful challenge
creation from the initial state (empty history), the current record has
`day_number = 1` but the history already holds 1 record (the new one
itself), so `day_number = history length + 1` fails and the history
count does not stay 0. -/
theorem c1_counterexample :
    (create_todays_challenge initial_state 1 (.success (some "tok")) 5).1.current_challenge.day_number = 1
    ∧ (create_todays_challenge initial_state 1 (.success (some "tok")) 5).1.challenge_history.length = 1
    ∧ ¬ ((create_todays_challenge initial_state 1 (.success (some "tok")) 5).1.current_challenge.day_number
          = (create_todays_challenge initial_state 1 (.success (some "tok")) 5).1.challenge_history.length + 1) := by
  decide

/-- Claim C1, amended: in every reachable state the `day_number` of the
current challenge record equals the length of the challenge history
(the code appends the new record itself to the history), and a first
successful creation on an empty history yields `day_number = 1` with a
history of length 1, not 0. -/
theorem c1_sequence_invariant :
    (∀ s : BotState, Reachable s →
      s.current_challenge.day_number = s.challenge_history.length)
    ∧ (create_todays_challenge initial_state 1 (.success (some "tok")) 5).1.current_challenge.day_number = 1
    ∧ (create_todays_challenge initial_state 1 (.success (some "tok")) 5).1.challenge_history.length = 1 := by
  refine ⟨?_, by decide, by decide⟩
  intro s hs
  induction hs with
  | init => rfl
  | step s' op hprev ih =>
    cases op with
    | command => simpa [applyOp] using ih
    | dailyCycle channelFound wd fetch resp now =>
      rcases applyOp_dailyCycle_cases s' channelFound wd fetch resp now with hA | hA
      · rw [hA]
        exact ih
      · rw [hA]
        rcases create_todays_challenge_frame s' wd resp now with hB | ⟨hB1, hB2⟩
        · rw [hB]
          exact ih
        · rw [hB1, hB2]
          simp [ih]

/-- Claim C1, witness: the invariant instantiated at a concrete reachable
state, one daily cycle after initialization. -/
theorem c1_sequence_invariant_witness :
    (applyOp initial_state (.dailyCycle true 0 .networkError (.success (some "t")) 0)).current_challenge.day_number
      = (applyOp initial_state (.dailyCycle true 0 .networkError (.success (some "t")) 0)).challenge_history.length :=
  c1_sequence_invariant.1 _ (Reachable.step _ _ Reachable.init)

/-- Claim C2, counterexample: starting from the initial state, where no
previous current record exists, a successful creation nevertheless
appends a record to the history — and the appended record is the NEW
current record, not a superseded one. -/
theorem c2_counterexample :
    (create_todays_challenge initial_state 0 (.success (some "tok123")) 7).1.challenge_history
      = [(create_todays_challenge initial_state 0 (.success (some "tok123")) 7).1.current_challenge]
    ∧ (create_todays_challenge initial_state 0 (.success (some "tok123")) 7).1.challenge_history ≠ [] := by
  decide

/-- Claim C2, amended: a successful `create_todays_challenge` builds a
new record with `day_number` exactly one more than before, appends a copy
of that NEW record to the history, and installs it as current; the manual
`!challenge` command never installs anything — it raises `NameError`
(`is_allowed_channel` is undefined) before doing any work and touches no
state. -/
theorem c2_create_behavior (s : BotState) (wd : Fin 7) (now : Nat) (tok : String)
    (h : ¬ tok = "") :
    (create_todays_challenge s wd (.success (some tok)) now).1.current_challenge.day_number
        = s.current_challenge.day_number + 1
    ∧ (create_todays_challenge s wd (.success (some tok)) now).1.challenge_history
        = s.challenge_history
          ++ [(create_todays_challenge s wd (.success (some tok)) now).1.current_challenge]
    ∧ (create_todays_challenge s wd (.success (some tok)) now).1.current_challenge.id = some tok
    ∧ (∀ (ch : Nat) (m md : Option String) (wd2 : Fin 7) (resp : CreateResponse),
        manual_challenge ch m md wd2 resp = .error nameErrorIsAllowed) := by
  rw [create_todays_challenge_success s wd now tok h]
  exact ⟨rfl, rfl, rfl, fun ch m md wd2 resp => rfl⟩

/-- Claim C2, witness: the amended behavior at a concrete input. -/
theorem c2_create_behavior_witness :
    (create_todays_challenge initial_state 2 (.success (some "abc")) 3).1.current_challenge.day_number
      = initial_state.current_challenge.day_number + 1 :=
  (c2_create_behavior initial_state 2 3 "abc" (by decide)).1

/-- Claim C3: invoking the `!schedule` command from a channel outside
`ALLOWED_CHANNELS` is NOT silent — the handler's channel check evaluates
the never-defined name `CHANNEL_ID`, raising `NameError`, which
`on_command_error` turns into an error reply. -/
theorem c3_out_of_scope_not_silent :
    999 ∉ ALLOWED_CHANNELS
    ∧ invoke_show_schedule 999
        = [Reply.message ("❌ An error occurred: " ++ nameErrorChannelId)]
    ∧ invoke_show_schedule 999 ≠ ([] : List Reply) := by
  refine ⟨by decide, rfl, by decide⟩

/-- Claim C4: a missing `nick` does default to `"Unknown"`, but a missing
score does NOT default to the number 0 — the code defaults it to the
string `"0"` and then `f-string` comma formatting raises `ValueError`,
aborting the whole leaderboard and losing the remaining well-formed
entries. -/
theorem c4_missing_score_aborts :
    format_leaderboard ⟨some (.list [itemNoNick 4500]), false⟩ 10
      = .ok ["🥇 1. **Unknown** - 4,500"]
    ∧ format_leaderboard
        ⟨some (.list [itemNoScore "Alice", itemGood "Bob" 5000]), false⟩ 10
      = .error "ValueError: Cannot specify comma format with type str" :=
  ⟨rfl, rfl⟩

/-- Claim C5: on every remote create failure (network error, non-success
HTTP status, malformed payload, or a success response missing the token
field) the daily creation reports a failure and returns the state
unchanged. -/
theorem c5_create_failure_frame (s : BotState) (wd : Fin 7) (now : Nat)
    (resp : CreateResponse) (h : isCreateFailure resp = true) :
    create_todays_challenge s wd resp now = (s, [CycleMsg.createFailed]) := by
  obtain ⟨hm, hg⟩ := rotation_config_valid wd
  obtain ⟨mc, hmc⟩ := Option.isSome_iff_exists.mp hm
  obtain ⟨gc, hgc⟩ := Option.isSome_iff_exists.mp hg
  cases resp with
  | networkError => simp [create_todays_challenge, hmc, hgc, create_challenge]
  | httpError status => simp [create_todays_challenge, hmc, hgc, create_challenge]
  | malformedBody => simp [create_todays_challenge, hmc, hgc, create_challenge]
  | success token =>
    cases token with
    | none => simp [create_todays_challenge, hmc, hgc, create_challenge, pyStr]
    | some t => simp [isCreateFailure] at h

/-- Claim C5, witness: a network error at a concrete state leaves the
state byte-for-byte unchanged. -/
theorem c5_create_failure_frame_witness :
    create_todays_challenge initial_state 3 .networkError 0
      = (initial_state, [CycleMsg.createFailed]) :=
  c5_create_failure_frame initial_state 3 0 .networkError rfl

/-- Claim C6: when a current challenge exists and the results fetch for
it fails, the daily cycle reports the failure (the warning message) but
still proceeds to resolve today's rotation entry and create today's
challenge — the cycle outcome is exactly the create outcome with the
warning prepended. -/
theorem c6_fetch_failure_does_not_block (s : BotState) (wd : Fin 7)
    (resp : CreateResponse) (now : Nat) (fetch : FetchResponse)
    (h1 : optStrTruthy s.current_challenge.id = true)
    (h2 : get_challenge_results (s.current_challenge.id.getD "") fetch = none) :
    daily_challenge_cycle true s wd fetch resp now
      = .ok ((create_todays_challenge s wd resp now).1,
             CycleMsg.fetchWarning :: (create_todays_challenge s wd resp now).2) := by
  simp [daily_challenge_cycle, h1, post_previous_results, h2]

/-- Claim C6, witness: a concrete state with an active challenge and a
network error on the fetch. -/
theorem c6_fetch_failure_does_not_block_witness :
    daily_challenge_cycle true ⟨⟨some "x", none, none, none, none, 4⟩, []⟩ 0
        .networkError (.success (some "t")) 9
      = .ok ((create_todays_challenge ⟨⟨some "x", none, none, none, none, 4⟩, []⟩ 0
                (.success (some "t")) 9).1,
             CycleMsg.fetchWarning
               :: (create_todays_challenge ⟨⟨some "x", none, none, none, none, 4⟩, []⟩ 0
                     (.success (some "t")) 9).2) :=
  c6_fetch_failure_does_not_block _ 0 (.success (some "t")) 9 .networkError rfl rfl

/-- Claim C7: a results payload whose `items` array is empty closes out
as a success — one results embed with an empty leaderboard (the
no-results case) — which is a different outcome from the fetch-failure
warning. -/
theorem c7_empty_results_success (s : BotState) (b : Bool) :
    post_previous_results s (.success ⟨some (.list []), b⟩)
      = .ok [CycleMsg.resultsEmbed s.current_challenge.day_number [] none]
    ∧ post_previous_results s .networkError = .ok [CycleMsg.fetchWarning]
    ∧ CycleMsg.resultsEmbed s.current_challenge.day_number [] none
        ≠ CycleMsg.fetchWarning := by
  refine ⟨?_, rfl, by simp⟩
  simp [post_previous_results, get_challenge_results, Results.truthy,
    format_leaderboard, formatLoop]

/-- Claim C8: a successful daily creation records exactly the map and
mode of the rotation entry selected by the current weekday, and the
entry for weekday 0 (Monday) is `community_world` with mode `move`. -/
theorem c8_rotation_selection (s : BotState) (wd : Fin 7) (now : Nat)
    (tok : String) (h : ¬ tok = "") :
    ((create_todays_challenge s wd (.success (some tok)) now).1.current_challenge.map
        = some (get_today_rotation wd).map
     ∧ (create_todays_challenge s wd (.success (some tok)) now).1.current_challenge.mode
        = some (get_today_rotation wd).mode)
    ∧ get_today_rotation 0 = ⟨"community_world", "move"⟩ := by
  refine ⟨?_, by decide⟩
  rw [create_todays_challenge_success s wd now tok h]
  exact ⟨rfl, rfl⟩

/-- Claim C8, witness: the rotation selection at a concrete weekday. -/
theorem c8_rotation_selection_witness :
    (create_todays_challenge initial_state 4 (.success (some "zz")) 1).1.current_challenge.map
      = some (get_today_rotation 4).map :=
  (c8_rotation_selection initial_state 4 1 "zz" (by decide)).1.1

/-- Claim C9: whenever leaderboard formatting succeeds it produces at
most `max_players` lines, and entries beyond the cap are dropped before
processing — appending anything after the first `max_players` items
cannot change the result (so extra entries never produce an error). -/
theorem c9_cap (r : Results) (cap : Nat) :
    (∀ lines, format_leaderboard r cap = .ok lines → lines.length ≤ cap)
    ∧ (∀ (l extra : List Item) (b : Bool), cap ≤ l.length →
        format_leaderboard ⟨some (.list (l ++ extra)), b⟩ cap
          = format_leaderboard ⟨some (.list l), b⟩ cap)
    ∧ (∀ (l : List Item) (b : Bool) (lines : List String),
        format_leaderboard ⟨some (.list l), b⟩ cap = .ok lines →
        lines = ((l.take cap).enumFrom 1).filterMap
          (fun p => (playerOf p.2).map fun pl => renderTotal p.1 pl)) := by
  refine ⟨?_, ?_, fun l b lines h => formatLoop_characterization (l.take cap) 1 lines h⟩
  · intro lines h
    rcases hi : r.itemsVal with _ | (items | _)
    · simp [format_leaderboard, hi] at h
      subst h
      simp
    · simp [format_leaderboard, hi] at h
      calc lines.length ≤ (items.take cap).length := formatLoop_length _ 1 lines h
        _ ≤ cap := by simp [List.length_take]
    · simp [format_leaderboard, hi] at h
      subst h
      simp
  · intro l extra b hle
    simp [format_leaderboard, List.take_append_of_le_length hle]

/-- Claim C9, witness: a 3-item payload (the third item malformed) capped
at 2 yields exactly the 2 lines of the first items, equal to formatting
the 2-item payload, and of length at most 2. -/
theorem c9_cap_witness :
    (["🥇 1. **A** - 100", "🥈 2. **B** - 200"] : List String).length ≤ 2
    ∧ format_leaderboard
        ⟨some (.list ([itemGood "A" 100, itemGood "B" 200] ++ [itemNoScore "C"])), false⟩ 2
      = format_leaderboard ⟨some (.list [itemGood "A" 100, itemGood "B" 200]), false⟩ 2
    ∧ (["🥇 1. **A** - 100", "🥈 2. **B** - 200"] : List String)
      = (([itemGood "A" 100, itemGood "B" 200, itemNoScore "C"].take 2).enumFrom 1).filterMap
          (fun p => (playerOf p.2).map fun pl => renderTotal p.1 pl) :=
  ⟨(c9_cap ⟨some (.list ([itemGood "A" 100, itemGood "B" 200] ++ [itemNoScore "C"])), false⟩ 2).1
      _ rfl,
   (c9_cap ⟨some (.list ([itemGood "A" 100, itemGood "B" 200] ++ [itemNoScore "C"])), false⟩ 2).2.1
      [itemGood "A" 100, itemGood "B" 200] [itemNoScore "C"] false (by decide),
   (c9_cap ⟨some (.list [itemGood "A" 100, itemGood "B" 200, itemNoScore "C"]), false⟩ 2).2.2
      [itemGood "A" 100, itemGood "B" 200, itemNoScore "C"] false _ rfl⟩

/-- Claim C10: on success the produced lines are exactly the items of the
truncated list that have both a `game` and a `player` key, each rendered
with the rank equal to its 1-based position in the truncated list — items
lacking either key are skipped (not defaulted) and leave a gap in the
rank numbering. -/
theorem c10_skip_and_rank (l : List Item) (cap : Nat) (b : Bool)
    (lines : List String)
    (h : format_leaderboard ⟨some (.list l), b⟩ cap = .ok lines) :
    lines = ((l.take cap).enumFrom 1).filterMap
      (fun p => (playerOf p.2).map fun pl => renderTotal p.1 pl) := by
  exact formatLoop_characterization (l.take cap) 1 lines h

/-- Claim C10, witness: with a game-less item in second position the
emitted lines are ranked 1 and 3 — rank 2 is a gap, and rank 3 still
receives the bronze medal. -/
theorem c10_skip_and_rank_witness :
    (["🥇 1. **A** - 100", "🥉 3. **B** - 250"] : List String)
      = (([itemGood "A" 100, itemNoGame, itemGood "B" 250].take 10).enumFrom 1).filterMap
          (fun p => (playerOf p.2).map fun pl => renderTotal p.1 pl) :=
  c10_skip_and_rank [itemGood "A" 100, itemNoGame, itemGood "B" 250] 10 false _ rfl

end DailyChallengeBot
